import Mathlib

/-!
Shallow embedding of the `network-copilot` execution pipeline and analysis
normalizer (`app/utils.py`, `app/adapters/ollama_adapter.py`).

External subprocesses (`javac`, `java`, `python`) are modelled by an
environment `Env` mapping each invocation to its behaviour: the process
either terminates after a given duration with a result, or the executable
is missing (Python raises `FileNotFoundError`), or the process never
terminates on its own.  Python-level control flow that can raise or hang is
modelled by the three-valued `Outcome`.  The filesystem is modelled as the
list of temporary workspace directories currently existing; creating and
removing a directory are cons and erase on that list.
-/

namespace NetCop

/-! ## Python string primitives (ASCII semantics) -/

/-- Python `\s` / `str.strip` whitespace characters (ASCII fragment). -/
def isPySpace (c : Char) : Bool :=
  c = ' ' || c = '\t' || c = '\n' || c = '\r' || c = '\x0b' || c = '\x0c'

/-- Strip `isPySpace` characters from both ends of a char list. -/
def pyStripL (l : List Char) : List Char :=
  ((l.dropWhile isPySpace).reverse.dropWhile isPySpace).reverse

/-- Python `str.strip()` (ASCII whitespace). -/
def pyStrip (s : String) : String :=
  String.mk (pyStripL s.toList)

/-- Does `l` start with the char list `pre`? -/
def listStarts : List Char → List Char → Bool
  | [], _ => true
  | _ :: _, [] => false
  | a :: as, b :: bs => a = b && listStarts as bs

/-- Python `str.startswith`. -/
def strStarts (pre s : String) : Bool :=
  listStarts pre.toList s.toList

/-- Python `str.endswith`. -/
def strEnds (suf s : String) : Bool :=
  listStarts suf.toList.reverse s.toList.reverse

/-- Does `hay` contain `needle` as a contiguous run (Python `in`)? -/
def listHasInfix (needle : List Char) : List Char → Bool
  | [] => listStarts needle []
  | hay@(_ :: rest) => listStarts needle hay || listHasInfix needle rest

/-- Python substring test `needle in hay`. -/
def strIn (needle hay : String) : Bool :=
  listHasInfix needle.toList hay.toList

/-- Split a char list at newline characters (Python `str.splitlines` for
`\n`-separated text). -/
def splitNL : List Char → List (List Char)
  | [] => [[]]
  | c :: rest =>
    if c = '\n' then [] :: splitNL rest
    else
      match splitNL rest with
      | [] => [[c]]
      | l :: ls => (c :: l) :: ls

/-- The lines of a Python string. -/
def pyLines (s : String) : List String :=
  (splitNL s.toList).map String.mk

/-- Python `str.lower` (ASCII). -/
def lowerS (s : String) : String :=
  String.mk (s.toList.map Char.toLower)

/-! ## Process model -/

/-- Captured output of a terminated subprocess (`subprocess.CompletedProcess`). -/
structure ProcResult where
  returncode : Int
  stdout : String
  stderr : String
deriving Repr, DecidableEq

/-- How the external executable behind one invocation behaves. -/
inductive ProcBehavior
  | found (duration : Nat) (result : ProcResult)
  | notFound
  | runsForever
deriving Repr

/-- A toolchain invocation made by the pipeline (argv abstracted). -/
inductive Invocation
  | javacI (path : String)
  | javaI (classpath : String) (cls : String)
  | pythonI (path : String)
deriving Repr, DecidableEq

/-- The execution environment: behaviour of each possible invocation. -/
def Env : Type := Invocation → ProcBehavior

/-- Result of running a piece of Python code: it returns a value, raises an
exception (identified by its class name), or never terminates. -/
inductive Outcome (α : Type)
  | returns (a : α)
  | raises (exc : String)
  | hangs
deriving Repr, DecidableEq

/-- `subprocess.run(argv, capture_output=True, text=True, timeout=tmo)`:
raises `FileNotFoundError` when the executable is missing; with a timeout,
raises `TimeoutExpired` when the process runs longer than the bound; with
no timeout a non-terminating process hangs the caller. -/
def subprocess_run (env : Env) (inv : Invocation) (tmo : Option Nat) :
    Outcome ProcResult :=
  match env inv with
  | .notFound => .raises "FileNotFoundError"
  | .runsForever =>
    match tmo with
    | some _ => .raises "TimeoutExpired"
    | none => .hangs
  | .found d r =>
    match tmo with
    | some t => if t < d then .raises "TimeoutExpired" else .returns r
    | none => .returns r

/-! ## `compile_java` (utils.py lines 49-67) -/

/-- Return value of `compile_java`. -/
structure CompileJavaResult where
  success : Bool
  stdout : String
  stderr : String
deriving Repr, DecidableEq

/-- `compile_java(java_path)`: runs `javac` with a 20 second timeout and
converts `FileNotFoundError` and `TimeoutExpired` into result values. -/
def compile_java (env : Env) (java_path : String) : Outcome CompileJavaResult :=
  match subprocess_run env (.javacI java_path) (some 20) with
  | .raises e =>
    if e = "FileNotFoundError" then
      .returns ⟨false, "", "javac not found on PATH. Install JDK."⟩
    else if e = "TimeoutExpired" then
      .returns ⟨false, "", "javac timed out."⟩
    else .raises e
  | .hangs => .hangs
  | .returns p => .returns ⟨p.returncode = 0, p.stdout, p.stderr⟩

/-! ## `run_code` (utils.py lines 83-120) -/

/-- The structured output dict of `run_code`. -/
structure ExecResult where
  compile_output : String
  run_output : String
  exit_code : Int
deriving Repr, DecidableEq

/-- The filesystem, as the list of existing workspace directories. -/
abbrev FS : Type := List String

/-- `run_code(language, code)`, instrumented: besides the Python outcome it
returns the trace of subprocess invocations (with the timeout passed to
each) and the final filesystem.  `tmpdir` is the fresh directory name
chosen by `tempfile.TemporaryDirectory`; the `with` block removes it on
every path on which the block is exited (normal return or exception), and
leaves it behind only if the body never terminates. -/
def run_code (env : Env) (tmpdir : String) (language code : String) (fs : FS) :
    Outcome ExecResult × List (Invocation × Option Nat) × FS :=
  let fsIn : FS := tmpdir :: fs
  let fsOut : FS := fsIn.erase tmpdir
  if lowerS language = "java" then
    let filePath := tmpdir ++ "/Main.java"
    let inv₁ : Invocation := .javacI filePath
    match subprocess_run env inv₁ none with
    | .raises e => (.raises e, [(inv₁, none)], fsOut)
    | .hangs => (.hangs, [(inv₁, none)], fsIn)
    | .returns cp =>
      if cp.returncode ≠ 0 then
        (.returns ⟨cp.stderr, "", cp.returncode⟩, [(inv₁, none)], fsOut)
      else
        let inv₂ : Invocation := .javaI tmpdir "Main"
        match subprocess_run env inv₂ none with
        | .raises e => (.raises e, [(inv₁, none), (inv₂, none)], fsOut)
        | .hangs => (.hangs, [(inv₁, none), (inv₂, none)], fsIn)
        | .returns rp =>
          (.returns ⟨cp.stdout ++ cp.stderr, rp.stdout ++ rp.stderr, rp.returncode⟩,
            [(inv₁, none), (inv₂, none)], fsOut)
  else if strStarts "py" (lowerS language) then
    let filePath := tmpdir ++ "/script.py"
    let inv : Invocation := .pythonI filePath
    match subprocess_run env inv none with
    | .raises e => (.raises e, [(inv, none)], fsOut)
    | .hangs => (.hangs, [(inv, none)], fsIn)
    | .returns rp =>
      (.returns ⟨"", rp.stdout ++ rp.stderr, rp.returncode⟩, [(inv, none)], fsOut)
  else
    (.returns ⟨"", "Language " ++ language ++ " not supported.", -1⟩, [], fsOut)

/-! ## `save_code_to_tempfile` (utils.py lines 12-44) -/

/-- `[A-Za-z_]`. -/
def isIdentStart (c : Char) : Bool := c.isAlpha || c = '_'

/-- `[A-Za-z0-9_]`. -/
def isIdentChar (c : Char) : Bool := c.isAlphanum || c = '_'

/-- Match literal `lit` at the head of `cs`, returning the rest. -/
def dropLit : List Char → List Char → Option (List Char)
  | [], cs => some cs
  | _ :: _, [] => none
  | l :: ls, c :: cs => if c = l then dropLit ls cs else none

/-- Try to match `public\s+class\s+([A-Za-z_][A-Za-z0-9_]*)` at the head of
`cs`; on success return the captured identifier. -/
def matchPubClass (cs : List Char) : Option String :=
  match dropLit "public".toList cs with
  | none => none
  | some cs₁ =>
    if (cs₁.takeWhile isPySpace).isEmpty then none
    else
      match dropLit "class".toList (cs₁.dropWhile isPySpace) with
      | none => none
      | some cs₂ =>
        if (cs₂.takeWhile isPySpace).isEmpty then none
        else
          match cs₂.dropWhile isPySpace with
          | [] => none
          | c :: rest =>
            if isIdentStart c then
              some (String.mk (c :: rest.takeWhile isIdentChar))
            else none

/-- Leftmost match of the `public class` pattern (`re.search`). -/
def searchPubClass : List Char → Option String
  | [] => none
  | l@(_ :: rest) =>
    match matchPubClass l with
    | some r => some r
    | none => searchPubClass rest

/-- `re.search(r'public\s+class\s+([A-Za-z_][A-Za-z0-9_]*)', code)`,
returning the captured class name of the leftmost match. -/
def find_public_class (code : String) : Option String :=
  searchPubClass code.toList

/-- Filename resolution of `save_code_to_tempfile` (the `fname` variable).
`hint = none` is Python `filename_hint=None`; `some ""` is falsy too. -/
def save_fname (code language : String) (hint : Option String) : String :=
  if lowerS language = "java" then
    match find_public_class code with
    | some cls => cls ++ ".java"
    | none =>
      match hint with
      | some h =>
        if h ≠ "" then (if strEnds ".java" h then h else h ++ ".java")
        else "Main.java"
      | none => "Main.java"
  else if strStarts "py" (lowerS language) then
    match hint with
    | some h => if h ≠ "" && strEnds ".py" h then h else "script.py"
    | none => "script.py"
  else
    match hint with
    | some h => if h ≠ "" then h else "code.txt"
    | none => "code.txt"

/-- `save_code_to_tempfile(code, language, filename_hint)`: creates a fresh
directory `tmpdir` (via `tempfile.mkdtemp`), writes the file, and returns
the path.  It never removes the directory, so the directory stays in the
filesystem. -/
def save_code_to_tempfile (code language : String) (hint : Option String)
    (tmpdir : String) (fs : FS) : String × FS :=
  (tmpdir ++ "/" ++ save_fname code language hint, tmpdir :: fs)

/-! ## `parse_analysis_response` (utils.py lines 125-175) -/

/-- The structured analysis sections. -/
structure AnalysisSections where
  what_it_does : String
  security_issues : List String
  suggestions : List String
deriving Repr, DecidableEq

/-- The `current_section` cursor values. -/
inductive Cursor
  | what
  | sec
  | sug
deriving Repr, DecidableEq

/-- Parser state: accumulated sections and the cursor. -/
structure PState where
  sections : AnalysisSections
  cur : Option Cursor
deriving Repr, DecidableEq

/-- Transform of one content line in the `security_issues` section:
`line[1:].strip()` when the line starts with `*` or `-`, else the line. -/
def secItem (line : String) : String :=
  if strStarts "*" line || strStarts "-" line then
    pyStrip (String.mk (line.toList.drop 1))
  else line

/-- The character set of `lstrip("*-1234567890. ")`. -/
def sugStripSet (c : Char) : Bool :=
  c = '*' || c = '-' || c.isDigit || c = '.' || c = ' '

/-- Transform of one content line in the `suggestions` section:
`line.lstrip("*-1234567890. ").strip()` when the line starts with `*`, `-`,
`1.`, `2.` or `3.`, else the line. -/
def sugItem (line : String) : String :=
  if strStarts "*" line || strStarts "-" line || strStarts "1." line ||
      strStarts "2." line || strStarts "3." line then
    pyStrip (String.mk (line.toList.dropWhile sugStripSet))
  else line

/-- One iteration of the parser loop body on a raw line. -/
def pstep (st : PState) (rawLine : String) : PState :=
  let line := pyStrip rawLine
  if line = "" then st
  else if strIn "**What it does:**" line then { st with cur := some .what }
  else if strIn "**Security issues:**" line then { st with cur := some .sec }
  else if strIn "**Improvement suggestions:**" line ||
      strIn "**Suggestions for improvement:**" line then
    { st with cur := some .sug }
  else
    match st.cur with
    | some .what =>
      { st with sections :=
          { st.sections with
            what_it_does := st.sections.what_it_does ++ line ++ " " } }
    | some .sec =>
      { st with sections :=
          { st.sections with
            security_issues := st.sections.security_issues ++ [secItem line] } }
    | some .sug =>
      { st with sections :=
          { st.sections with
            suggestions := st.sections.suggestions ++ [sugItem line] } }
    | none => st

/-- `parse_analysis_response(text)`. -/
def parse_analysis_response (text : String) : AnalysisSections :=
  let fin := (pyLines text).foldl pstep ⟨⟨"", [], []⟩, none⟩
  { fin.sections with what_it_does := pyStrip fin.sections.what_it_does }

/-! ## `query_model` (ollama_adapter.py lines 36-47) and
`analyze_code` (utils.py lines 182-220) -/

/-- A JSON-ish value the model backend may return (string fields only,
which is the shape the claims exercise). -/
inductive LLMValue
  | vstr (s : String)
  | vdict (entries : List (String × String))
deriving Repr, DecidableEq

/-- Python `dict.get` (first matching key; keys are unique in a dict). -/
def pyGet (d : List (String × String)) (k : String) : Option String :=
  (d.find? (fun kv => kv.1 = k)).map (fun kv => kv.2)

/-- Python `repr` of a string without special characters. -/
def pyReprStr (s : String) : String := "'" ++ s ++ "'"

/-- Python `str` of a string-valued dict, e.g. `\x7b'error': 'msg'\x7d`. -/
def pyStrOfDict (d : List (String × String)) : String :=
  "\x7b" ++
    String.intercalate ", "
      (d.map (fun kv => pyReprStr kv.1 ++ ": " ++ pyReprStr kv.2)) ++
    "\x7d"

/-- Python `str` of an `LLMValue`. -/
def pyStrOfLLM : LLMValue → String
  | .vstr s => s
  | .vdict d => pyStrOfDict d

/-- Keep only a truthy string (Python `or` treats `None` and `""` as falsy). -/
def truthyOpt : Option String → Option String
  | none => none
  | some s => if s = "" then none else some s

/-- The orchestrator's normalization of the model response to raw text:
`llm_response.get("response") or llm_response.get("text") or
str(llm_response)` for dicts, `str(llm_response)` otherwise. -/
def extract_text : LLMValue → String
  | .vstr s => s
  | .vdict d =>
    ((truthyOpt (pyGet d "response")).orElse
      (fun _ => truthyOpt (pyGet d "text"))).getD (pyStrOfDict d)

/-- Outcome of the `query_model(model, prompt)` call inside `analyze_code`:
either it returns a value or it raises. -/
inductive LLMOutcome
  | returns (v : LLMValue)
  | raises (msg : String)
deriving Repr, DecidableEq

/-- How the model backend HTTP call behaves: the response JSON, or the
exception message of whatever `requests` raised. -/
inductive HttpOutcome
  | ok (v : LLMValue)
  | raise (msg : String)
deriving Repr, DecidableEq

/-- `query_model(model, prompt)`: returns `response.json()` on success and
the dict `\x7b"error": str(e)\x7d` on any exception — it never raises. -/
def query_model (http : HttpOutcome) : LLMOutcome :=
  match http with
  | .ok v => .returns v
  | .raise m => .returns (.vdict [("error", m)])

/-- The `llm_response_text` variable of `analyze_code`: the try block's
extraction on success, the `[Error generating analysis]` substitution when
`query_model` raised. -/
def llm_text : LLMOutcome → String
  | .returns v => extract_text v
  | .raises e => "[Error generating analysis] " ++ e

/-- The merged report returned by `analyze_code`. -/
structure AnalysisReport where
  analysis : AnalysisSections
  compile_output : String
  run_output : String
  exit_code : Int
deriving Repr, DecidableEq

/-- `analyze_code(language, code, model)`: normalizes the model response
(exceptions from `query_model` are caught), parses it, then calls
`run_code` — which is outside the `try` block, so an exception from
`run_code` propagates out of `analyze_code`. -/
def analyze_code (llm : LLMOutcome) (env : Env) (tmpdir : String)
    (language code : String) (fs : FS) : Outcome AnalysisReport × FS :=
  let structured := parse_analysis_response (llm_text llm)
  match run_code env tmpdir language code fs with
  | (.returns r, _, fs') =>
    (.returns ⟨structured, r.compile_output, r.run_output, r.exit_code⟩, fs')
  | (.raises e, _, fs') => (.raises e, fs')
  | (.hangs, _, fs') => (.hangs, fs')

/-! ## Theorems -/

/-- An execution environment in which every executable is missing. -/
def envAllMissing : Env := fun _ => ProcBehavior.notFound

/-- C1 (counterexample): with `javac` missing from the environment,
`run_code("java", ...)` does not return an `ExecutionResult`: the
`FileNotFoundError` raised by `subprocess.run` propagates out of `run_code`
uncaught, refuting totality; moreover the single invocation it made carried
no timeout. -/
theorem C1_counterexample :
    (run_code envAllMissing "netcop_d0" "java" "class Main {}" []).1 =
      Outcome.raises "FileNotFoundError" ∧
    (run_code envAllMissing "netcop_d0" "java" "class Main {}" []).2.1 =
      [(Invocation.javacI "netcop_d0/Main.java", none)] := by
  constructor <;> rfl

/-- C1 (amended): `run_code` returns an `ExecutionResult` for every language
and source whenever every invoked executable exists and terminates; every
subprocess `run_code` invokes carries no timeout at all (it is unbounded);
and the separate `compile_java` helper — unused by `run_code` — is total in
every environment, converting a missing `javac` and a timeout into result
values under its 20-second bound. -/
theorem C1_amended (env : Env) (tmpdir language code : String) (fs : FS)
    (h : ∀ inv, ∃ d r, env inv = ProcBehavior.found d r) :
    (∃ res, (run_code env tmpdir language code fs).1 = Outcome.returns res) ∧
    (∀ p ∈ (run_code env tmpdir language code fs).2.1, p.2 = none) ∧
    (∀ (env' : Env) (path : String), ∃ cres,
      compile_java env' path = Outcome.returns cres) := by
  refine ⟨?_, ?_, ?_⟩
  · unfold run_code
    by_cases hj : lowerS language = "java"
    · obtain ⟨d₁, r₁, hr₁⟩ := h (.javacI (tmpdir ++ "/Main.java"))
      obtain ⟨d₂, r₂, hr₂⟩ := h (.javaI tmpdir "Main")
      by_cases hrc : r₁.returncode ≠ 0
      · exact ⟨_, by simp [subprocess_run, hj, hr₁, hrc]; rfl⟩
      · exact ⟨_, by simp [subprocess_run, hj, hr₁, hr₂, hrc]; rfl⟩
    · by_cases hp : strStarts "py" (lowerS language)
      · obtain ⟨d, r, hr⟩ := h (.pythonI (tmpdir ++ "/script.py"))
        exact ⟨_, by simp [subprocess_run, hj, hp, hr]; rfl⟩
      · exact ⟨_, by simp [hj, hp]; rfl⟩
  · intro p hp
    unfold run_code at hp
    by_cases hj : lowerS language = "java"
    · simp only [hj, if_pos rfl] at hp
      rcases hsub : subprocess_run env (.javacI (tmpdir ++ "/Main.java")) none with
        cp | e | _ <;> simp only [hsub] at hp
      · by_cases hrc : cp.returncode ≠ 0
        · simp [hrc] at hp
          simp [hp]
        · simp only [hrc, if_neg, ite_false] at hp
          rcases hsub₂ : subprocess_run env (.javaI tmpdir "Main") none with
            rp | e | _ <;> simp [hsub₂, hrc] at hp <;>
            rcases hp with hp | hp <;> simp [hp]
      · simp at hp; simp [hp]
      · simp at hp; simp [hp]
    · simp only [hj, if_neg, ite_false] at hp
      by_cases hpy : strStarts "py" (lowerS language)
      · simp only [hpy, if_pos rfl] at hp
        rcases hsub : subprocess_run env (.pythonI (tmpdir ++ "/script.py")) none with
          rp | e | _ <;> simp [hsub] at hp <;> simp [hp]
      · simp [hpy] at hp
  · intro env' path
    unfold compile_java subprocess_run
    rcases hb : env' (.javacI path) with ⟨d, r⟩ | _ | _
    · by_cases hd : 20 < d
      · exact ⟨_, by simp [hb, hd]; rfl⟩
      · exact ⟨_, by simp [hb, hd]; rfl⟩
    · exact ⟨_, by simp [hb]; rfl⟩
    · exact ⟨_, by simp [hb]; rfl⟩

/-- C1 (witness for the amended theorem). -/
theorem C1_amended_witness :
    (∃ res, (run_code (fun _ => ProcBehavior.found 1 ⟨0, "o", "e"⟩) "d0" "java"
        "class Main {}" []).1 = Outcome.returns res) ∧
    (∀ p ∈ (run_code (fun _ => ProcBehavior.found 1 ⟨0, "o", "e"⟩) "d0" "java"
        "class Main {}" []).2.1, p.2 = none) ∧
    (∀ (env' : Env) (path : String), ∃ cres,
      compile_java env' path = Outcome.returns cres) :=
  C1_amended (fun _ => ProcBehavior.found 1 ⟨0, "o", "e"⟩) "d0" "java"
    "class Main {}" [] (fun _ => ⟨1, ⟨0, "o", "e"⟩, rfl⟩)

/-- C2: for a Java-tagged source whose compile step exits non-zero (and with
the compiler writing a diagnostic to stderr, as `javac` does), `run_code`
returns an `ExecutionResult` with the compiler's exit code, empty
`run_output` and non-empty `compile_output`, and the trace contains only the
compile invocation — the `java` run phase is never executed. -/
theorem C2_compile_failure (env : Env) (tmpdir language code : String) (fs : FS)
    (d : Nat) (cp : ProcResult)
    (hlang : lowerS language = "java")
    (hjavac : env (.javacI (tmpdir ++ "/Main.java")) = ProcBehavior.found d cp)
    (hfail : cp.returncode ≠ 0)
    (hdiag : cp.stderr ≠ "") :
    (run_code env tmpdir language code fs).1 =
      Outcome.returns ⟨cp.stderr, "", cp.returncode⟩ ∧
    cp.stderr ≠ "" ∧
    (run_code env tmpdir language code fs).2.1 =
      [(Invocation.javacI (tmpdir ++ "/Main.java"), none)] ∧
    (∀ (cpth cls : String) (tm : Option Nat),
      (Invocation.javaI cpth cls, tm) ∉ (run_code env tmpdir language code fs).2.1) := by
  have htr : (run_code env tmpdir language code fs).2.1 =
      [(Invocation.javacI (tmpdir ++ "/Main.java"), none)] := by
    unfold run_code
    simp [subprocess_run, hlang, hjavac, hfail]
  refine ⟨?_, hdiag, htr, ?_⟩
  · unfold run_code
    simp [subprocess_run, hlang, hjavac, hfail]
  · intro cpth cls tm hmem
    rw [htr] at hmem
    simp at hmem

/-- C2 (witness). -/
theorem C2_compile_failure_witness :
    (run_code (fun _ => ProcBehavior.found 1 ⟨2, "", "error: x"⟩) "d0" "java"
        "class Main" []).1 =
      Outcome.returns ⟨"error: x", "", 2⟩ ∧
    ("error: x" : String) ≠ "" ∧
    (run_code (fun _ => ProcBehavior.found 1 ⟨2, "", "error: x"⟩) "d0" "java"
        "class Main" []).2.1 = [(Invocation.javacI "d0/Main.java", none)] ∧
    (∀ (cpth cls : String) (tm : Option Nat),
      (Invocation.javaI cpth cls, tm) ∉
        (run_code (fun _ => ProcBehavior.found 1 ⟨2, "", "error: x"⟩) "d0" "java"
          "class Main" []).2.1) :=
  C2_compile_failure (fun _ => ProcBehavior.found 1 ⟨2, "", "error: x"⟩)
    "d0" "java" "class Main" [] 1 ⟨2, "", "error: x"⟩
    rfl rfl (by decide) (by decide)

/-- An environment whose `javac` fails with output on both streams. -/
def envC3 : Env := fun inv =>
  match inv with
  | .javacI _ => ProcBehavior.found 0 ⟨2, "OUT", "ERR"⟩
  | _ => ProcBehavior.found 0 ⟨0, "", ""⟩

/-- C3 (counterexample): when the compile step fails with stdout `"OUT"` and
stderr `"ERR"`, `run_code` reports `compile_output = "ERR"` — the compile
step's stdout is dropped, so `compile_output` is not the concatenation of
the compile step's stdout and stderr in the compile-failure case. -/
theorem C3_counterexample :
    (run_code envC3 "netcop_d0" "java" "class Main {}" []).1 =
      Outcome.returns ⟨"ERR", "", 2⟩ ∧
    ("ERR" : String) ≠ "OUT" ++ "ERR" := by
  exact ⟨rfl, by decide⟩

/-- C3 (amended): for a Java-tagged source, `compile_output` is the
concatenation of the compile step's stdout and stderr in the
compile-success case, but only the compile step's stderr in the
compile-failure case; `run_output` is the concatenation of the run step's
stdout and stderr. -/
theorem C3_amended (env : Env) (tmpdir language code : String) (fs : FS)
    (d₁ : Nat) (cp : ProcResult)
    (hlang : lowerS language = "java")
    (hjavac : env (.javacI (tmpdir ++ "/Main.java")) = ProcBehavior.found d₁ cp) :
    (cp.returncode ≠ 0 →
      (run_code env tmpdir language code fs).1 =
        Outcome.returns ⟨cp.stderr, "", cp.returncode⟩) ∧
    (cp.returncode = 0 → ∀ (d₂ : Nat) (rp : ProcResult),
      env (.javaI tmpdir "Main") = ProcBehavior.found d₂ rp →
      (run_code env tmpdir language code fs).1 =
        Outcome.returns
          ⟨cp.stdout ++ cp.stderr, rp.stdout ++ rp.stderr, rp.returncode⟩) := by
  constructor
  · intro hfail
    unfold run_code
    simp [subprocess_run, hlang, hjavac, hfail]
  · intro hok d₂ rp hjava
    unfold run_code
    simp [subprocess_run, hlang, hjavac, hjava, hok]

/-- C3 (witness for the amended theorem). -/
theorem C3_amended_witness :
    ((2 : Int) ≠ 0 →
      (run_code envC3 "d0" "java" "class Main {}" []).1 =
        Outcome.returns ⟨"ERR", "", 2⟩) ∧
    ((2 : Int) = 0 → ∀ (d₂ : Nat) (rp : ProcResult),
      envC3 (.javaI "d0" "Main") = ProcBehavior.found d₂ rp →
      (run_code envC3 "d0" "java" "class Main {}" []).1 =
        Outcome.returns ⟨"OUT" ++ "ERR", rp.stdout ++ rp.stderr, rp.returncode⟩) :=
  C3_amended envC3 "d0" "java" "class Main {}" [] 0 ⟨2, "OUT", "ERR"⟩ rfl rfl

/-- C4: for a language tag that is neither Java nor a Python prefix,
`run_code` returns — as a value, with an empty invocation trace, so no
subprocess runs and nothing is raised — `exit_code = -1`, empty
`compile_output`, and a non-empty `run_output` stating the language is not
supported. -/
theorem C4_unsupported_language (env : Env) (tmpdir language code : String) (fs : FS)
    (h₁ : lowerS language ≠ "java")
    (h₂ : strStarts "py" (lowerS language) = false) :
    (run_code env tmpdir language code fs).1 =
      Outcome.returns ⟨"", "Language " ++ language ++ " not supported.", -1⟩ ∧
    ("Language " ++ language ++ " not supported." : String) ≠ "" ∧
    (run_code env tmpdir language code fs).2.1 = [] := by
  refine ⟨?_, ?_, ?_⟩
  · unfold run_code
    simp [h₁, h₂]
  · intro h
    have hl := congrArg String.length h
    rw [String.length_append, String.length_append] at hl
    have h9 : ("Language " : String).length = 9 := rfl
    have h15 : (" not supported." : String).length = 15 := rfl
    have h0 : ("" : String).length = 0 := rfl
    rw [h9, h15, h0] at hl
    omega
  · unfold run_code
    simp [h₁, h₂]

/-- C4 (witness). -/
theorem C4_unsupported_language_witness :
    (run_code envAllMissing "d0" "ruby" "puts 1" []).1 =
      Outcome.returns ⟨"", "Language " ++ "ruby" ++ " not supported.", -1⟩ ∧
    ("Language " ++ "ruby" ++ " not supported." : String) ≠ "" ∧
    (run_code envAllMissing "d0" "ruby" "puts 1" []).2.1 = [] :=
  C4_unsupported_language envAllMissing "d0" "ruby" "puts 1" []
    (by decide) (by decide)

/-- C5 (counterexample): `save_code_to_tempfile` creates its workspace
directory with `tempfile.mkdtemp` and neither it nor any caller in the
repository ever removes it: after the staging call returns, the directory
is still present in the filesystem. -/
theorem C5_counterexample :
    "netcop_d0" ∈ (save_code_to_tempfile "print(1)" "python" none "netcop_d0" []).2 ∧
    (save_code_to_tempfile "print(1)" "python" none "netcop_d0" []).2 ≠ ([] : FS) := by
  constructor
  · simp [save_code_to_tempfile]
  · simp [save_code_to_tempfile]

/-- C5 (amended): the temporary directory created by `run_code` is removed
on every path on which the call ends (success, compile failure, run
failure, raised exception), restoring the filesystem; but the directory
created by `save_code_to_tempfile` is still present in the filesystem when
that call returns. -/
theorem C5_amended (env : Env) (tmpdir language code : String) (fs : FS) :
    ((run_code env tmpdir language code fs).1 ≠ Outcome.hangs →
      (run_code env tmpdir language code fs).2.2 = fs) ∧
    (∀ (code₂ language₂ : String) (hint : Option String) (tmpdir₂ : String) (fs₂ : FS),
      (save_code_to_tempfile code₂ language₂ hint tmpdir₂ fs₂).2 = tmpdir₂ :: fs₂) := by
  constructor
  · intro hne
    unfold run_code at hne ⊢
    by_cases hj : lowerS language = "java"
    · rcases hsub : subprocess_run env (.javacI (tmpdir ++ "/Main.java")) none with
        cp | e | _
      · by_cases hrc : cp.returncode ≠ 0
        · simp [hj, hsub, hrc]
        · rcases hsub₂ : subprocess_run env (.javaI tmpdir "Main") none with rp | e | _
          · simp [hj, hsub, hsub₂, hrc]
          · simp [hj, hsub, hsub₂, hrc]
          · exact absurd (by simp [hj, hsub, hsub₂, hrc]) hne
      · simp [hj, hsub]
      · exact absurd (by simp [hj, hsub]) hne
    · by_cases hpy : strStarts "py" (lowerS language)
      · rcases hsub : subprocess_run env (.pythonI (tmpdir ++ "/script.py")) none with
          rp | e | _
        · simp [hj, hpy, hsub]
        · simp [hj, hpy, hsub]
        · exact absurd (by simp [hj, hpy, hsub]) hne
      · simp [hj, hpy]
  · intro code₂ language₂ hint tmpdir₂ fs₂
    simp [save_code_to_tempfile]

/-- C5 (witness for the amended theorem). -/
theorem C5_amended_witness :
    (run_code envC3 "d0" "java" "class Main {}" []).2.2 = [] ∧
    (save_code_to_tempfile "x" "java" none "d0" []).2 = ["d0"] :=
  ⟨(C5_amended envC3 "d0" "java" "class Main {}" []).1 (by decide),
   (C5_amended envC3 "d0" "java" "class Main {}" []).2 "x" "java" none "d0" []⟩

/-- C6: for a Java-tagged staging call via `save_code_to_tempfile`: when the
`public class` scan finds an identifier, the file is named after it and any
filename hint is ignored; when the scan finds nothing, a given non-empty
hint is used (suffixed with `.java` unless it already ends in it), and the
default is `Main.java`. -/
theorem C6_java_filename (tmpdir language code : String) (fs : FS)
    (hlang : lowerS language = "java") :
    (∀ cls : String, find_public_class code = some cls →
      ∀ hint : Option String,
        (save_code_to_tempfile code language hint tmpdir fs).1 =
          tmpdir ++ "/" ++ (cls ++ ".java")) ∧
    (find_public_class code = none →
      ∀ hv : String, hv ≠ "" →
        (save_code_to_tempfile code language (some hv) tmpdir fs).1 =
          tmpdir ++ "/" ++ (if strEnds ".java" hv then hv else hv ++ ".java")) ∧
    (find_public_class code = none →
      (save_code_to_tempfile code language none tmpdir fs).1 =
        tmpdir ++ "/" ++ "Main.java") := by
  refine ⟨?_, ?_, ?_⟩
  · intro cls hfind hint
    simp [save_code_to_tempfile, save_fname, hlang, hfind]
  · intro hfind hv hne
    simp [save_code_to_tempfile, save_fname, hlang, hfind, hne]
  · intro hfind
    simp [save_code_to_tempfile, save_fname, hlang, hfind]

/-- C6 (witness). -/
theorem C6_java_filename_witness :
    (save_code_to_tempfile "public class Foo {}" "Java" (some "Hint") "d0" []).1 =
      "d0" ++ "/" ++ ("Foo" ++ ".java") ∧
    (save_code_to_tempfile "class X {}" "java" (some "Hint") "d0" []).1 =
      "d0" ++ "/" ++ (if strEnds ".java" "Hint" then "Hint" else "Hint" ++ ".java") ∧
    (save_code_to_tempfile "class X {}" "java" none "d0" []).1 =
      "d0" ++ "/" ++ "Main.java" :=
  ⟨(C6_java_filename "d0" "Java" "public class Foo {}" [] (by decide)).1
      "Foo" (by decide) (some "Hint"),
   (C6_java_filename "d0" "java" "class X {}" [] (by decide)).2.1
      (by decide) "Hint" (by decide),
   (C6_java_filename "d0" "java" "class X {}" [] (by decide)).2.2 (by decide)⟩

/-- No recognized section marker occurs in `line`. -/
def noMarkerB (line : String) : Bool :=
  !(strIn "**What it does:**" line || strIn "**Security issues:**" line ||
    strIn "**Improvement suggestions:**" line ||
    strIn "**Suggestions for improvement:**" line)

/-- A non-blank, marker-free line in the `security_issues` section appends
exactly `secItem` of the stripped line and leaves everything else alone. -/
theorem pstep_sec_eq (st : PState) (l : String) (hcur : st.cur = some Cursor.sec)
    (hne : pyStrip l ≠ "") (hnm : noMarkerB (pyStrip l) = true) :
    pstep st l = ⟨⟨st.sections.what_it_does,
      st.sections.security_issues ++ [secItem (pyStrip l)],
      st.sections.suggestions⟩, st.cur⟩ := by
  simp only [noMarkerB, Bool.not_eq_true', Bool.or_eq_false_iff] at hnm
  obtain ⟨⟨⟨h₁, h₂⟩, h₃⟩, h₄⟩ := hnm
  unfold pstep
  simp [hne, h₁, h₂, h₃, h₄, hcur]

/-- A non-blank, marker-free line in the `suggestions` section appends
exactly `sugItem` of the stripped line and leaves everything else alone. -/
theorem pstep_sug_eq (st : PState) (l : String) (hcur : st.cur = some Cursor.sug)
    (hne : pyStrip l ≠ "") (hnm : noMarkerB (pyStrip l) = true) :
    pstep st l = ⟨⟨st.sections.what_it_does, st.sections.security_issues,
      st.sections.suggestions ++ [sugItem (pyStrip l)]⟩, st.cur⟩ := by
  simp only [noMarkerB, Bool.not_eq_true', Bool.or_eq_false_iff] at hnm
  obtain ⟨⟨⟨h₁, h₂⟩, h₃⟩, h₄⟩ := hnm
  unfold pstep
  simp [hne, h₁, h₂, h₃, h₄, hcur]

/-- Folding over non-blank, marker-free lines while the cursor is on
`security_issues` adds one element per line. -/
theorem foldl_count_sec (ls : List String) (st : PState)
    (hcur : st.cur = some Cursor.sec)
    (hall : ∀ l ∈ ls, pyStrip l ≠ "" ∧ noMarkerB (pyStrip l) = true) :
    (ls.foldl pstep st).sections.security_issues.length =
      st.sections.security_issues.length + ls.length := by
  induction ls generalizing st with
  | nil => simp
  | cons l ls ih =>
    have h := hall l (by simp)
    rw [List.foldl_cons, pstep_sec_eq st l hcur h.1 h.2]
    rw [ih _ (by simp [hcur]) (fun x hx => hall x (by simp [hx]))]
    simp
    omega

/-- Folding over non-blank, marker-free lines while the cursor is on
`suggestions` adds one element per line. -/
theorem foldl_count_sug (ls : List String) (st : PState)
    (hcur : st.cur = some Cursor.sug)
    (hall : ∀ l ∈ ls, pyStrip l ≠ "" ∧ noMarkerB (pyStrip l) = true) :
    (ls.foldl pstep st).sections.suggestions.length =
      st.sections.suggestions.length + ls.length := by
  induction ls generalizing st with
  | nil => simp
  | cons l ls ih =>
    have h := hall l (by simp)
    rw [List.foldl_cons, pstep_sug_eq st l hcur h.1 h.2]
    rw [ih _ (by simp [hcur]) (fun x hx => hall x (by simp [hx]))]
    simp
    omega

/-- C7 (counterexample): under the suggestions marker, the line
`*- use tls` yields the element `use tls`: the parser strips *all* leading
glyph characters (`lstrip("*-1234567890. ")`), not exactly one, so the
element is not `- use tls` as single-glyph stripping would give. -/
theorem C7_counterexample :
    (parse_analysis_response "**Suggestions for improvement:**\n*- use tls").suggestions =
      ["use tls"] ∧
    (parse_analysis_response "**Suggestions for improvement:**\n*- use tls").suggestions ≠
      ["- use tls"] := by
  constructor
  · decide
  · decide

/-- C7 (amended): while the current section is `security_issues`, each
non-blank marker-free line appends exactly one element, `secItem` of the
stripped line (one leading `*` or `-` stripped, then trimmed, else
verbatim); while it is `suggestions`, each such line appends exactly one
element, `sugItem` of the stripped line (for lines starting with `*`, `-`,
`1.`, `2.` or `3.`, *all* leading characters among `*`, `-`, digits, `.`
and space are stripped, then trimmed; other lines verbatim); consequently
each section's element count grows by exactly the number of such lines
processed under its marker. -/
theorem C7_amended :
    (∀ (st : PState) (l : String), st.cur = some Cursor.sec →
      pyStrip l ≠ "" → noMarkerB (pyStrip l) = true →
      pstep st l = ⟨⟨st.sections.what_it_does,
        st.sections.security_issues ++ [secItem (pyStrip l)],
        st.sections.suggestions⟩, st.cur⟩) ∧
    (∀ (st : PState) (l : String), st.cur = some Cursor.sug →
      pyStrip l ≠ "" → noMarkerB (pyStrip l) = true →
      pstep st l = ⟨⟨st.sections.what_it_does, st.sections.security_issues,
        st.sections.suggestions ++ [sugItem (pyStrip l)]⟩, st.cur⟩) ∧
    (∀ (ls : List String) (st : PState), st.cur = some Cursor.sec →
      (∀ l ∈ ls, pyStrip l ≠ "" ∧ noMarkerB (pyStrip l) = true) →
      (ls.foldl pstep st).sections.security_issues.length =
        st.sections.security_issues.length + ls.length) ∧
    (∀ (ls : List String) (st : PState), st.cur = some Cursor.sug →
      (∀ l ∈ ls, pyStrip l ≠ "" ∧ noMarkerB (pyStrip l) = true) →
      (ls.foldl pstep st).sections.suggestions.length =
        st.sections.suggestions.length + ls.length) :=
  ⟨pstep_sec_eq, pstep_sug_eq, foldl_count_sec, foldl_count_sug⟩

/-- C7 (witness for the amended theorem). -/
theorem C7_amended_witness :
    (pstep ⟨⟨"", [], []⟩, some Cursor.sec⟩ " *- a " =
      ⟨⟨"", [] ++ [secItem (pyStrip " *- a ")], []⟩, some Cursor.sec⟩) ∧
    (pstep ⟨⟨"", [], []⟩, some Cursor.sug⟩ "1. b" =
      ⟨⟨"", [], [] ++ [sugItem (pyStrip "1. b")]⟩, some Cursor.sug⟩) ∧
    ((["* x", "- y"].foldl pstep
        ⟨⟨"", [], []⟩, some Cursor.sec⟩).sections.security_issues.length = 0 + 2) ∧
    ((["1. a"].foldl pstep
        ⟨⟨"", [], []⟩, some Cursor.sug⟩).sections.suggestions.length = 0 + 1) :=
  ⟨C7_amended.1 ⟨⟨"", [], []⟩, some Cursor.sec⟩ " *- a " rfl (by decide) (by decide),
   C7_amended.2.1 ⟨⟨"", [], []⟩, some Cursor.sug⟩ "1. b" rfl (by decide) (by decide),
   C7_amended.2.2.1 ["* x", "- y"] ⟨⟨"", [], []⟩, some Cursor.sec⟩ rfl (by decide),
   C7_amended.2.2.2 ["1. a"] ⟨⟨"", [], []⟩, some Cursor.sug⟩ rfl (by decide)⟩

/-- When `run_code` returns a result, `analyze_code` returns the merged
report, whatever the collaborator outcome was. -/
theorem analyze_returns (llm : LLMOutcome) (env : Env) (tmpdir language code : String)
    (fs : FS) (r : ExecResult)
    (hrun : (run_code env tmpdir language code fs).1 = Outcome.returns r) :
    (analyze_code llm env tmpdir language code fs).1 =
      Outcome.returns ⟨parse_analysis_response (llm_text llm),
        r.compile_output, r.run_output, r.exit_code⟩ := by
  unfold analyze_code
  rcases hv : run_code env tmpdir language code fs with ⟨out, tr, fs₂⟩
  rw [hv] at hrun
  simp only at hrun
  subst hrun
  rfl

/-- When `run_code` raises, the exception propagates out of `analyze_code`
(the `run_code` call is outside the `try` block). -/
theorem analyze_raises (llm : LLMOutcome) (env : Env) (tmpdir language code : String)
    (fs : FS) (e : String)
    (hrun : (run_code env tmpdir language code fs).1 = Outcome.raises e) :
    (analyze_code llm env tmpdir language code fs).1 = Outcome.raises e := by
  unfold analyze_code
  rcases hv : run_code env tmpdir language code fs with ⟨out, tr, fs₂⟩
  rw [hv] at hrun
  simp only at hrun
  subst hrun
  rfl

/-- C8 (counterexample): with the toolchain executables missing, the
`FileNotFoundError` raised by the dispatcher propagates out of
`analyze_code` — no report with the four fields is returned, so a
dispatcher failure does prevent the analysis results from being returned. -/
theorem C8_counterexample :
    (analyze_code (.raises "boom") envAllMissing "d0" "java" "class Main {}" []).1 =
      Outcome.raises "FileNotFoundError" := by
  rfl

/-- C8 (amended): whenever the dispatcher call returns an `ExecutionResult`,
`analyze_code` returns a report with all four top-level fields for every
collaborator outcome — including the collaborator raising, whose effect is
confined to the `analysis` field; but when the dispatcher call raises, the
exception propagates out of `analyze_code` (its call sits outside the
`try` block), so the analysis results are lost in that direction. -/
theorem C8_amended (llm : LLMOutcome) (env : Env) (tmpdir language code : String)
    (fs : FS) :
    (∀ r : ExecResult, (run_code env tmpdir language code fs).1 = Outcome.returns r →
      (analyze_code llm env tmpdir language code fs).1 =
        Outcome.returns ⟨parse_analysis_response (llm_text llm),
          r.compile_output, r.run_output, r.exit_code⟩) ∧
    (∀ e : String, (run_code env tmpdir language code fs).1 = Outcome.raises e →
      (analyze_code llm env tmpdir language code fs).1 = Outcome.raises e) :=
  ⟨fun r hr => analyze_returns llm env tmpdir language code fs r hr,
   fun e he => analyze_raises llm env tmpdir language code fs e he⟩

/-- C8 (witness for the amended theorem). -/
theorem C8_amended_witness :
    (analyze_code (.raises "boom") envC3 "d0" "java" "class Main" []).1 =
      Outcome.returns ⟨parse_analysis_response (llm_text (.raises "boom")),
        "ERR", "", 2⟩ ∧
    (analyze_code (.returns (.vstr "hi")) envAllMissing "d0" "java" "x" []).1 =
      Outcome.raises "FileNotFoundError" :=
  ⟨(C8_amended (.raises "boom") envC3 "d0" "java" "class Main" []).1
      ⟨"ERR", "", 2⟩ rfl,
   (C8_amended (.returns (.vstr "hi")) envAllMissing "d0" "java" "x" []).2
      "FileNotFoundError" rfl⟩

/-- C9 (counterexample): for the mapping with `"response"` present but
mapped to the empty string, the orchestrator does not take the value of
the first present recognized key (which would be `""`): the Python
`or`-chain treats the falsy value as absent and falls through to the
string rendering of the whole mapping. -/
theorem C9_counterexample :
    pyGet [("response", "")] "response" = some "" ∧
    extract_text (.vdict [("response", "")]) = pyStrOfDict [("response", "")] ∧
    extract_text (.vdict [("response", "")]) ≠ "" := by
  refine ⟨rfl, rfl, ?_⟩
  decide

/-- C9 (amended): the orchestrator takes as raw analysis text the value of
the first of the two recognized keys (`"response"`, then `"text"`) whose
value is present *and truthy* (a non-empty string), and falls back to a
string rendering of the whole mapping only when neither key has a truthy
value. -/
theorem C9_amended (d : List (String × String)) :
    (∀ s : String, truthyOpt (pyGet d "response") = some s →
      extract_text (.vdict d) = s) ∧
    (truthyOpt (pyGet d "response") = none →
      ∀ t : String, truthyOpt (pyGet d "text") = some t →
        extract_text (.vdict d) = t) ∧
    (truthyOpt (pyGet d "response") = none →
      truthyOpt (pyGet d "text") = none →
      extract_text (.vdict d) = pyStrOfDict d) := by
  refine ⟨?_, ?_, ?_⟩
  · intro s hs
    simp [extract_text, Option.orElse, hs]
  · intro hr t ht
    simp [extract_text, Option.orElse, hr, ht]
  · intro hr ht
    simp [extract_text, Option.orElse, hr, ht]

/-- C9 (witness for the amended theorem). -/
theorem C9_amended_witness :
    extract_text (.vdict [("response", "hi"), ("text", "t")]) = "hi" ∧
    extract_text (.vdict [("response", ""), ("text", "t")]) = "t" ∧
    extract_text (.vdict [("other", "x")]) = pyStrOfDict [("other", "x")] :=
  ⟨(C9_amended [("response", "hi"), ("text", "t")]).1 "hi" (by decide),
   (C9_amended [("response", ""), ("text", "t")]).2.1 (by decide) "t" (by decide),
   (C9_amended [("other", "x")]).2.2 (by decide) (by decide)⟩

/-- A marker-free non-blank-or-blank line leaves the parser state unchanged
when no section is active. -/
theorem pstep_none_eq (st : PState) (l : String) (hcur : st.cur = none)
    (hnm : noMarkerB (pyStrip l) = true) :
    pstep st l = st := by
  by_cases hne : pyStrip l = ""
  · unfold pstep
    simp [hne]
  · simp only [noMarkerB, Bool.not_eq_true', Bool.or_eq_false_iff] at hnm
    obtain ⟨⟨⟨h₁, h₂⟩, h₃⟩, h₄⟩ := hnm
    unfold pstep
    simp [hne, h₁, h₂, h₃, h₄, hcur]

/-- Folding marker-free lines from the initial (no-section) state is the
identity. -/
theorem foldl_no_marker (ls : List String) (st : PState) (hcur : st.cur = none)
    (hall : ∀ l ∈ ls, noMarkerB (pyStrip l) = true) :
    ls.foldl pstep st = st := by
  induction ls generalizing st with
  | nil => rfl
  | cons l ls ih =>
    rw [List.foldl_cons, pstep_none_eq st l hcur (hall l (by simp))]
    exact ih st hcur (fun x hx => hall x (by simp [hx]))

/-- Text none of whose lines contains a recognized marker normalizes to the
all-empty sections. -/
theorem parse_no_marker_empty (text : String)
    (hall : ∀ l ∈ pyLines text, noMarkerB (pyStrip l) = true) :
    parse_analysis_response text = ⟨"", [], []⟩ := by
  unfold parse_analysis_response
  rw [foldl_no_marker (pyLines text) ⟨⟨"", [], []⟩, none⟩ rfl hall]
  rfl

/-- C10: on an HTTP failure with message `msg` (containing no recognized
marker, as real `requests` error strings do), `query_model` returns the
mapping `\x7b"error": msg\x7d` rather than raising; the orchestrator's
exception branch is therefore not taken and the raw analysis text is the
stringified mapping; parsing it yields the all-empty `AnalysisSections`, in
which the error text appears nowhere; and when the dispatcher returns, the
report carries exactly that empty analysis. -/
theorem C10_http_error_swallowed (msg : String) (env : Env)
    (tmpdir language code : String) (fs : FS)
    (hnm : ∀ l ∈ pyLines (pyStrOfDict [("error", msg)]),
      noMarkerB (pyStrip l) = true) :
    query_model (.raise msg) = LLMOutcome.returns (.vdict [("error", msg)]) ∧
    llm_text (query_model (.raise msg)) = pyStrOfDict [("error", msg)] ∧
    parse_analysis_response (pyStrOfDict [("error", msg)]) = ⟨"", [], []⟩ ∧
    (∀ r : ExecResult, (run_code env tmpdir language code fs).1 = Outcome.returns r →
      (analyze_code (query_model (.raise msg)) env tmpdir language code fs).1 =
        Outcome.returns ⟨⟨"", [], []⟩, r.compile_output, r.run_output, r.exit_code⟩) := by
  have hparse : parse_analysis_response (pyStrOfDict [("error", msg)]) =
      ⟨"", [], []⟩ := parse_no_marker_empty _ hnm
  refine ⟨rfl, rfl, hparse, ?_⟩
  intro r hr
  have := analyze_returns (query_model (.raise msg)) env tmpdir language code fs r hr
  rw [this]
  have htext : llm_text (query_model (.raise msg)) = pyStrOfDict [("error", msg)] := rfl
  rw [htext, hparse]

/-- C10 (witness). -/
theorem C10_http_error_swallowed_witness :
    llm_text (query_model (.raise "Connection refused")) =
      pyStrOfDict [("error", "Connection refused")] ∧
    parse_analysis_response (pyStrOfDict [("error", "Connection refused")]) =
      ⟨"", [], []⟩ ∧
    (analyze_code (query_model (.raise "Connection refused")) envC3 "d0" "java"
        "class Main" []).1 =
      Outcome.returns ⟨⟨"", [], []⟩, "ERR", "", 2⟩ :=
  ⟨(C10_http_error_swallowed "Connection refused" envC3 "d0" "java" "class Main"
      [] (by decide)).2.1,
   (C10_http_error_swallowed "Connection refused" envC3 "d0" "java" "class Main"
      [] (by decide)).2.2.1,
   (C10_http_error_swallowed "Connection refused" envC3 "d0" "java" "class Main"
      [] (by decide)).2.2.2 ⟨"ERR", "", 2⟩ rfl⟩

end NetCop
